import Mathlib

/-!
Verification of the OAuth token lifecycle core of the `personal_trainer`
repository (`auth.py` + `token_store.py`), shallowly embedded in Lean.

Modelling conventions:
* Time (`time.time()`) is passed explicitly as `now : Int`.
* The JSON token store file is modelled as `TokenStore := String → Option StoredRecord`
  (a Python dict has unique keys; `store[p] = r` / `store.pop(p)` become
  pointwise updates).
* The provider's HTTP response to a token-endpoint POST is passed as an
  explicit `HttpResult` argument (`success body` for a 2xx JSON body,
  `failure status` for a non-2xx response where `raise_for_status` raises).
* Python exceptions become the `Err` inductive: `KeyError` from a dict
  lookup, the two `ValueError` raise sites of `auth.py`, and the
  `httpx.HTTPStatusError` from `raise_for_status`.
* Each operation also reports how many outbound HTTP POSTs it made
  (`httpCalls`) and, for `get_valid_access_token`, how many times it
  invoked `refresh_tokens` (`refreshCalls`).
-/

/-- A persisted per-provider token record, as written by `save_tokens`
(`token_store.py`): always exactly the three keys
`access_token`, `refresh_token`, `expires_at`. -/
structure StoredRecord where
  access_token : String
  refresh_token : String
  expires_at : Int
deriving Repr, DecidableEq

/-- The JSON body of a provider token-endpoint response, restricted to the
fields the core reads. `none` means the field is absent from the JSON. -/
structure TokenData where
  access_token : Option String
  refresh_token : Option String
  expires_in : Option Int
  expires_at : Option Int
deriving Repr, DecidableEq

/-- The persisted collection (`token_store.json`): provider id to record. -/
abbrev TokenStore := String → Option StoredRecord

/-- The store with no records at all. -/
def emptyStore : TokenStore := fun _ => none

/-- Errors raised by the core.  `keyError k` models a Python `KeyError`
on key `k` (e.g. `PROVIDERS[provider]` for an unknown provider);
`noRefreshTokenStored` and `notAuthenticated` are the two `ValueError`
raise sites in `auth.py`; `httpStatusError` is `raise_for_status` on a
non-2xx provider response. -/
inductive Err where
  | keyError (key : String)
  | noRefreshTokenStored (provider : String)
  | notAuthenticated (provider : String)
  | httpStatusError (status : Nat)
deriving Repr, DecidableEq

/-- Spec §7 error taxonomy: both `ValueError` raise sites of `auth.py`
("No refresh token stored for {provider}. Re-authenticate." and
"Not authenticated with {provider}. Visit /auth/{provider}/login") denote
a missing usable token, i.e. the spec's `NotAuthenticated` class
("fails with `NotAuthenticated` if none exists or if it has no
refresh_token"). -/
def Err.isNotAuthenticated : Err → Bool
  | .noRefreshTokenStored _ => true
  | .notAuthenticated _ => true
  | _ => false

/-- Outcome of the outbound POST to the provider token endpoint. -/
inductive HttpResult where
  | success (body : TokenData)
  | failure (status : Nat)
deriving Repr, DecidableEq

/-- Process configuration (`config.py` `Settings`), restricted to the
fields the core reads. -/
structure Settings where
  strava_client_id : String
  strava_client_secret : String
  strava_auth_url : String
  strava_token_url : String
  strava_scopes : String
  whoop_client_id : String
  whoop_client_secret : String
  whoop_auth_url : String
  whoop_token_url : String
  whoop_scopes : String
  app_base_url : String
deriving Repr, DecidableEq

/-- One entry of the `PROVIDERS` mapping in `auth.py`. -/
structure ProviderCfg where
  client_id : String
  client_secret : String
  auth_url : String
  token_url : String
  scopes : String
  scope_separator : String
deriving Repr, DecidableEq

/-- The `PROVIDERS` dict of `auth.py`: lookup returns `none` exactly when
Python's `PROVIDERS[provider]` would raise `KeyError`. -/
def PROVIDERS (s : Settings) (provider : String) : Option ProviderCfg :=
  if provider = "strava" then
    some ⟨s.strava_client_id, s.strava_client_secret, s.strava_auth_url,
          s.strava_token_url, s.strava_scopes, ","⟩
  else if provider = "whoop" then
    some ⟨s.whoop_client_id, s.whoop_client_secret, s.whoop_auth_url,
          s.whoop_token_url, s.whoop_scopes, " "⟩
  else none

/-- `save_tokens` (`token_store.py`): normalize `expires_in` to an absolute
`expires_at` (only when `expires_at` is absent), then overwrite the
provider's entry with exactly the three persisted keys.  Returns the new
store together with the (possibly mutated) `token_data`; `KeyError` when
`token_data` lacks `access_token` or `refresh_token`. -/
def save_tokens (now : Int) (store : TokenStore) (provider : String)
    (token_data : TokenData) : Except Err (TokenStore × TokenData) :=
  let token_data :=
    if token_data.expires_at.isNone && token_data.expires_in.isSome then
      { token_data with expires_at := some (now + token_data.expires_in.getD 0) }
    else token_data
  match token_data.access_token with
  | none => .error (.keyError "access_token")
  | some a =>
    match token_data.refresh_token with
    | none => .error (.keyError "refresh_token")
    | some r =>
      .ok (fun q => if q = provider then
             some ⟨a, r, token_data.expires_at.getD 0⟩
           else store q,
           token_data)

/-- `get_tokens` (`token_store.py`): `store.get(provider)`. -/
def get_tokens (store : TokenStore) (provider : String) : Option StoredRecord :=
  store provider

/-- `is_token_expired` (`token_store.py`): `True` when no record exists,
otherwise `time.time() > expires_at - 300` (5-minute buffer). -/
def is_token_expired (now : Int) (store : TokenStore) (provider : String) : Bool :=
  match get_tokens store provider with
  | none => true
  | some tokens => decide (now > tokens.expires_at - 300)

/-- `delete_tokens` (`token_store.py`): `store.pop(provider, None)`. -/
def delete_tokens (store : TokenStore) (provider : String) : TokenStore :=
  fun q => if q = provider then none else store q

/-- `get_authorize_url` (`auth.py`): compose the provider's auth endpoint
with `client_id`, `redirect_uri`, `response_type`, `scope` (in that dict
order).  `KeyError` on an unknown provider, from `PROVIDERS[provider]`. -/
def get_authorize_url (s : Settings) (provider : String) : Except Err String :=
  match PROVIDERS s provider with
  | none => .error (.keyError provider)
  | some cfg =>
    let redirect_uri := s.app_base_url ++ "/auth/" ++ provider ++ "/callback"
    .ok (cfg.auth_url ++ "?client_id=" ++ cfg.client_id
         ++ "&redirect_uri=" ++ redirect_uri
         ++ "&response_type=code&scope=" ++ cfg.scopes)

/-- Result of `exchange_code_for_tokens` / `refresh_tokens`: the outcome
(new store and the returned `token_data` dict) plus the number of outbound
HTTP POSTs performed. -/
structure OpResult where
  result : Except Err (TokenStore × TokenData)
  httpCalls : Nat

/-- `exchange_code_for_tokens` (`auth.py`): look up the provider config
(`KeyError` if unknown), POST the code grant, `raise_for_status`, then
`save_tokens` and return the body. -/
def exchange_code_for_tokens (s : Settings) (now : Int) (store : TokenStore)
    (provider : String) (code : String) (resp : HttpResult) : OpResult :=
  match PROVIDERS s provider with
  | none => ⟨.error (.keyError provider), 0⟩
  | some _cfg =>
    let _payload := code
    match resp with
    | .failure status => ⟨.error (.httpStatusError status), 1⟩
    | .success token_data =>
      match save_tokens now store provider token_data with
      | .error e => ⟨.error e, 1⟩
      | .ok (st, td) => ⟨.ok (st, td), 1⟩

/-- `refresh_tokens` (`auth.py`): look up the provider config (`KeyError`
if unknown), fail when no record or a falsy stored `refresh_token`, POST
the refresh grant, re-attach the stored `refresh_token` when the response
omits it, then `save_tokens`. -/
def refresh_tokens (s : Settings) (now : Int) (store : TokenStore)
    (provider : String) (resp : HttpResult) : OpResult :=
  match PROVIDERS s provider with
  | none => ⟨.error (.keyError provider), 0⟩
  | some _cfg =>
    match get_tokens store provider with
    | none => ⟨.error (.noRefreshTokenStored provider), 0⟩
    | some tokens =>
      if tokens.refresh_token = "" then
        ⟨.error (.noRefreshTokenStored provider), 0⟩
      else
        match resp with
        | .failure status => ⟨.error (.httpStatusError status), 1⟩
        | .success token_data =>
          let token_data :=
            if token_data.refresh_token.isNone then
              { token_data with refresh_token := some tokens.refresh_token }
            else token_data
          match save_tokens now store provider token_data with
          | .error e => ⟨.error e, 1⟩
          | .ok (st, td) => ⟨.ok (st, td), 1⟩

/-- Result of `get_valid_access_token`: the outcome (store after the call
and the returned access token) plus the number of outbound HTTP POSTs and
of `refresh_tokens` invocations. -/
structure TokenFetchResult where
  result : Except Err (TokenStore × String)
  httpCalls : Nat
  refreshCalls : Nat

/-- `get_valid_access_token` (`auth.py`): if `is_token_expired`, call
`refresh_tokens` and return the new `access_token`; otherwise read the
stored record, raising the "Not authenticated" `ValueError` when absent. -/
def get_valid_access_token (s : Settings) (now : Int) (store : TokenStore)
    (provider : String) (resp : HttpResult) : TokenFetchResult :=
  if is_token_expired now store provider then
    let r := refresh_tokens s now store provider resp
    match r.result with
    | .error e => ⟨.error e, r.httpCalls, 1⟩
    | .ok (st, token_data) =>
      match token_data.access_token with
      | none => ⟨.error (.keyError "access_token"), r.httpCalls, 1⟩
      | some a => ⟨.ok (st, a), r.httpCalls, 1⟩
  else
    match get_tokens store provider with
    | none => ⟨.error (.notAuthenticated provider), 0, 0⟩
    | some tokens => ⟨.ok (store, tokens.access_token), 0, 0⟩

/-- A concrete `Settings` value (the defaults of `config.py`), used by
witnesses and counterexamples. -/
def testSettings : Settings :=
  { strava_client_id := "cid-s"
    strava_client_secret := "sec-s"
    strava_auth_url := "https://www.strava.com/oauth/authorize"
    strava_token_url := "https://www.strava.com/oauth/token"
    strava_scopes := "read,activity:read_all"
    whoop_client_id := "cid-w"
    whoop_client_secret := "sec-w"
    whoop_auth_url := "https://api.prod.whoop.com/oauth/oauth2/auth"
    whoop_token_url := "https://api.prod.whoop.com/oauth/oauth2/token"
    whoop_scopes := "read:recovery read:sleep"
    app_base_url := "http://localhost:8000" }

/-- Record stored for strava in the test fixtures. -/
def recA : StoredRecord := ⟨"oldA", "R1", 1000⟩

/-- A store holding only a strava record with refresh token "R1". -/
def storeA : TokenStore := fun q => if q = "strava" then some recA else none

/-- A 2xx refresh body that omits `refresh_token`. -/
def bodyNoRT : TokenData := ⟨some "newA", none, some 3600, none⟩

/-- A 2xx refresh body that rotates the refresh token to "R2". -/
def bodyR2 : TokenData := ⟨some "newA", some "R2", some 3600, none⟩

/-- Store after refreshing `storeA` at time 500 with `bodyNoRT`. -/
def storeA1 : TokenStore :=
  fun q => if q = "strava" then some ⟨"newA", "R1", 4100⟩ else storeA q

/-- `bodyNoRT` after re-attachment and expiry normalization at time 500. -/
def bodyNoRT1 : TokenData := ⟨some "newA", some "R1", some 3600, some 4100⟩

/-- Store after refreshing `storeA` at time 500 with `bodyR2`. -/
def storeA2 : TokenStore :=
  fun q => if q = "strava" then some ⟨"newA", "R2", 4100⟩ else storeA q

/-- `bodyR2` after expiry normalization at time 500. -/
def bodyR2' : TokenData := ⟨some "newA", some "R2", some 3600, some 4100⟩

/-- A full 2xx exchange body (access, refresh and `expires_in`). -/
def bodyFull : TokenData := ⟨some "acc", some "ref", some 3600, none⟩

/-- Store after exchanging a code into `emptyStore` at time 500 with `bodyFull`. -/
def storeFull : TokenStore :=
  fun q => if q = "strava" then some ⟨"acc", "ref", 4100⟩ else emptyStore q

/-- `bodyFull` after expiry normalization at time 500. -/
def bodyFull' : TokenData := ⟨some "acc", some "ref", some 3600, some 4100⟩

/-- A 2xx body carrying neither `expires_in` nor `expires_at`. -/
def bodyBare : TokenData := ⟨some "acc", some "ref", none, none⟩

/-- Store after saving `bodyBare` into `emptyStore`. -/
def storeBare : TokenStore :=
  fun q => if q = "strava" then some ⟨"acc", "ref", 0⟩ else emptyStore q

/-- A store whose strava record expires exactly 300 seconds after time 0. -/
def storeEdge : TokenStore := fun q => if q = "strava" then some ⟨"tok", "rt", 300⟩ else none

/-- A store whose strava record expires at time 1000. -/
def storeB : TokenStore := fun q => if q = "strava" then some ⟨"tok", "rt", 1000⟩ else none

/-- Store after saving `bodyFull` into `storeA` at time 500. -/
def storeC : TokenStore :=
  fun q => if q = "strava" then some ⟨"acc", "ref", 4100⟩ else storeA q

theorem save_tokens_ok_elim {now : Int} {store : TokenStore} {provider : String}
    {td : TokenData} {st : TokenStore} {td' : TokenData}
    (h : save_tokens now store provider td = .ok (st, td')) :
    ∃ a r, td.access_token = some a ∧ td.refresh_token = some r ∧
      ∀ q, st q = if q = provider then
          some ⟨a, r, if td.expires_at.isNone && td.expires_in.isSome
                      then now + td.expires_in.getD 0
                      else td.expires_at.getD 0⟩
        else store q := by
  by_cases hc : (td.expires_at.isNone && td.expires_in.isSome) = true
  · simp only [save_tokens, hc, if_true] at h
    cases hat : td.access_token with
    | none => simp [hat] at h
    | some a =>
      cases hrt : td.refresh_token with
      | none => simp [hat, hrt] at h
      | some r =>
        simp only [hat, hrt, Except.ok.injEq, Prod.mk.injEq] at h
        obtain ⟨hst, _⟩ := h
        exact ⟨a, r, rfl, rfl, fun q => by rw [← hst]; simp [hc]⟩
  · simp only [save_tokens, hc, if_false, Bool.false_eq_true] at h
    cases hat : td.access_token with
    | none => simp [hat] at h
    | some a =>
      cases hrt : td.refresh_token with
      | none => simp [hat, hrt] at h
      | some r =>
        simp only [hat, hrt, Except.ok.injEq, Prod.mk.injEq] at h
        obtain ⟨hst, _⟩ := h
        exact ⟨a, r, rfl, rfl, fun q => by rw [← hst]; simp [hc]⟩

theorem refresh_ok_elim {s : Settings} {now : Int} {store : TokenStore}
    {provider : String} {body : TokenData} {st : TokenStore} {td : TokenData}
    (h : (refresh_tokens s now store provider (.success body)).result = .ok (st, td)) :
    ∃ tokens rec, get_tokens store provider = some tokens ∧
      get_tokens st provider = some rec ∧
      rec.refresh_token = body.refresh_token.getD tokens.refresh_token := by
  unfold refresh_tokens at h
  split at h
  · simp at h
  · split at h
    · simp at h
    · rename_i tokens htk
      split at h
      · simp at h
      · rename_i hrt0
        split at h
        · rename_i hres td0 hs
          exact absurd hs (by simp)
        · rename_i hres td0 hs
          obtain rfl : td0 = body := by injection hs with h1; exact h1.symm
          cases hbrt : td0.refresh_token with
          | none =>
            simp only [hbrt, Option.isNone_none, if_true] at h
            split at h
            · simp at h
            · rename_i st1 td1 hs1
              simp only [Except.ok.injEq, Prod.mk.injEq] at h
              obtain ⟨hst, -⟩ := h
              obtain ⟨a, r, ha, hr, hq⟩ := save_tokens_ok_elim hs1
              have hsp := hq provider
              rw [if_pos rfl] at hsp
              rw [hst] at hsp
              have hreq : tokens.refresh_token = r :=
                Option.some.inj (hr : some tokens.refresh_token = some r)
              exact ⟨tokens, _, htk, hsp, hreq.symm⟩
          | some r2 =>
            simp only [hbrt, Option.isNone_some, Bool.false_eq_true, if_false] at h
            split at h
            · simp at h
            · rename_i st1 td1 hs1
              simp only [Except.ok.injEq, Prod.mk.injEq] at h
              obtain ⟨hst, -⟩ := h
              obtain ⟨a, r, ha, hr, hq⟩ := save_tokens_ok_elim hs1
              have hsp := hq provider
              rw [if_pos rfl] at hsp
              rw [hst] at hsp
              have hreq : r2 = r := by rw [hbrt] at hr; exact Option.some.inj hr
              exact ⟨tokens, _, htk, hsp, hreq.symm⟩

theorem gvat_refresh_count_of_expired {s : Settings} {now : Int}
    {store : TokenStore} {provider : String} {resp : HttpResult}
    (h : is_token_expired now store provider = true) :
    (get_valid_access_token s now store provider resp).refreshCalls = 1 := by
  unfold get_valid_access_token
  rw [h]
  simp only [if_true]
  split
  · rfl
  · split
    · rfl
    · rfl

theorem save_tokens_error_elim {now : Int} {store : TokenStore} {provider : String}
    {td : TokenData} {e : Err}
    (h : save_tokens now store provider td = .error e) :
    e = .keyError "access_token" ∨ e = .keyError "refresh_token" := by
  by_cases hc : (td.expires_at.isNone && td.expires_in.isSome) = true
  · simp only [save_tokens, hc, if_true] at h
    cases hat : td.access_token with
    | none => simp only [hat, Except.error.injEq] at h; exact Or.inl h.symm
    | some a =>
      cases hrt : td.refresh_token with
      | none => simp only [hat, hrt, Except.error.injEq] at h; exact Or.inr h.symm
      | some r => simp [hat, hrt] at h
  · simp only [save_tokens, hc, if_false, Bool.false_eq_true] at h
    cases hat : td.access_token with
    | none => simp only [hat, Except.error.injEq] at h; exact Or.inl h.symm
    | some a =>
      cases hrt : td.refresh_token with
      | none => simp only [hat, hrt, Except.error.injEq] at h; exact Or.inr h.symm
      | some r => simp [hat, hrt] at h

theorem refresh_error_not_notAuthenticated {s : Settings} {now : Int} {store : TokenStore}
    {provider q : String} {resp : HttpResult} {e : Err}
    (h : (refresh_tokens s now store provider resp).result = .error e) :
    e ≠ .notAuthenticated q := by
  intro hcontra
  subst hcontra
  unfold refresh_tokens at h
  split at h
  · simp at h
  · split at h
    · simp at h
    · split at h
      · simp at h
      · split at h
        · simp at h
        · rename_i td0
          cases hbrt : td0.refresh_token with
          | none =>
            simp only [hbrt, Option.isNone_none, if_true] at h
            split at h
            · rename_i e0 hs1
              simp only [Except.error.injEq] at h
              subst h
              rcases save_tokens_error_elim hs1 with h' | h' <;> simp at h'
            · simp at h
          | some r2 =>
            simp only [hbrt, Option.isNone_some, Bool.false_eq_true, if_false] at h
            split at h
            · rename_i e0 hs1
              simp only [Except.error.injEq] at h
              subst h
              rcases save_tokens_error_elim hs1 with h' | h' <;> simp at h'
            · simp at h

/-- C1: for every provider with a stored record whose refresh_token is R1,
if refresh receives a 2xx provider response whose JSON body omits the
refresh_token field, then the record persisted by refresh still has
refresh_token R1 (it is never null and never dropped). -/
theorem refresh_omitted_refresh_token_preserved
    (s : Settings) (now : Int) (store : TokenStore) (provider : String)
    (rec0 : StoredRecord) (body : TokenData) (st : TokenStore) (td : TokenData)
    (hstore : get_tokens store provider = some rec0)
    (hbody : body.refresh_token = none)
    (hok : (refresh_tokens s now store provider (.success body)).result = .ok (st, td)) :
    ∃ rec, get_tokens st provider = some rec ∧ rec.refresh_token = rec0.refresh_token := by
  obtain ⟨tokens, rec, htk, hrec, hrt⟩ := refresh_ok_elim hok
  rw [hstore] at htk
  obtain rfl : tokens = rec0 := (Option.some.inj htk).symm
  rw [hbody] at hrt
  exact ⟨rec, hrec, by simpa using hrt⟩

/-- C1 witness: refreshing a strava record with refresh token "R1" using a
response that omits `refresh_token` keeps "R1" in the persisted record. -/
theorem refresh_omitted_refresh_token_preserved_witness :
    get_tokens storeA "strava" = some recA ∧
    bodyNoRT.refresh_token = none ∧
    (refresh_tokens testSettings 500 storeA "strava" (.success bodyNoRT)).result
      = .ok (storeA1, bodyNoRT1) ∧
    ∃ rec, get_tokens storeA1 "strava" = some rec ∧ rec.refresh_token = recA.refresh_token :=
  ⟨rfl, rfl, rfl,
   refresh_omitted_refresh_token_preserved testSettings 500 storeA "strava" recA bodyNoRT
     storeA1 bodyNoRT1 rfl rfl rfl⟩

/-- C2: for every provider with a stored record, if refresh receives a 2xx
provider response whose JSON body includes refresh_token = R2, the record
persisted by refresh has refresh_token R2 (rotation replaces the old one). -/
theorem refresh_rotates_refresh_token
    (s : Settings) (now : Int) (store : TokenStore) (provider : String)
    (rec0 : StoredRecord) (body : TokenData) (r2 : String) (st : TokenStore) (td : TokenData)
    (_hstore : get_tokens store provider = some rec0)
    (hbody : body.refresh_token = some r2)
    (hok : (refresh_tokens s now store provider (.success body)).result = .ok (st, td)) :
    ∃ rec, get_tokens st provider = some rec ∧ rec.refresh_token = r2 := by
  obtain ⟨tokens, rec, htk, hrec, hrt⟩ := refresh_ok_elim hok
  rw [hbody] at hrt
  exact ⟨rec, hrec, by simpa using hrt⟩

/-- C2 witness: refreshing the stored strava record with a response carrying
refresh_token "R2" persists "R2". -/
theorem refresh_rotates_refresh_token_witness :
    get_tokens storeA "strava" = some recA ∧
    bodyR2.refresh_token = some "R2" ∧
    (refresh_tokens testSettings 500 storeA "strava" (.success bodyR2)).result
      = .ok (storeA2, bodyR2') ∧
    ∃ rec, get_tokens storeA2 "strava" = some rec ∧ rec.refresh_token = "R2" :=
  ⟨rfl, rfl, rfl,
   refresh_rotates_refresh_token testSettings 500 storeA "strava" recA bodyR2 "R2"
     storeA2 bodyR2' rfl rfl rfl⟩

/-- C3 counterexample: on the unsupported provider id "garmin",
`get_authorize_url` fails with the `KeyError` of `PROVIDERS[provider]` — a
key-lookup-style failure — refuting the claim that the operations never
fail with a null-reference/key-lookup-style failure. -/
theorem unknown_provider_key_error_cex :
    get_authorize_url testSettings "garmin" = .error (.keyError "garmin") := rfl

/-- C3 amended: for every provider id outside {strava, whoop} (and with no
record stored under that id), each of the four operations fails with the
`KeyError` raised by `PROVIDERS[provider]` (a key-lookup failure); the
`UnknownProvider`-style rejection is issued by the route layer's
`_validate_provider`, not by these operations. -/
theorem unknown_provider_key_error_amended
    (s : Settings) (now : Int) (store : TokenStore) (provider code : String)
    (resp : HttpResult)
    (h1 : provider ≠ "strava") (h2 : provider ≠ "whoop")
    (hstore : get_tokens store provider = none) :
    get_authorize_url s provider = .error (.keyError provider) ∧
    (exchange_code_for_tokens s now store provider code resp).result
      = .error (.keyError provider) ∧
    (refresh_tokens s now store provider resp).result = .error (.keyError provider) ∧
    (get_valid_access_token s now store provider resp).result
      = .error (.keyError provider) := by
  have hp : PROVIDERS s provider = none := by
    unfold PROVIDERS; rw [if_neg h1, if_neg h2]
  have hexp : is_token_expired now store provider = true := by
    unfold is_token_expired; rw [hstore]
  have hrefresh : (refresh_tokens s now store provider resp).result
      = .error (.keyError provider) := by
    unfold refresh_tokens; rw [hp]
  refine ⟨?_, ?_, hrefresh, ?_⟩
  · unfold get_authorize_url; rw [hp]
  · unfold exchange_code_for_tokens; rw [hp]
  · unfold get_valid_access_token
    rw [hexp, if_pos rfl]
    simp [hrefresh]

/-- C3 amended witness: concrete evaluation at provider id "garmin" on the
empty store. -/
theorem unknown_provider_key_error_amended_witness :
    ("garmin" : String) ≠ "strava" ∧ ("garmin" : String) ≠ "whoop" ∧
    get_tokens emptyStore "garmin" = none ∧
    (get_authorize_url testSettings "garmin" = .error (.keyError "garmin") ∧
     (exchange_code_for_tokens testSettings 0 emptyStore "garmin" "c" (.success bodyR2)).result
       = .error (.keyError "garmin") ∧
     (refresh_tokens testSettings 0 emptyStore "garmin" (.success bodyR2)).result
       = .error (.keyError "garmin") ∧
     (get_valid_access_token testSettings 0 emptyStore "garmin" (.success bodyR2)).result
       = .error (.keyError "garmin")) :=
  ⟨by decide, by decide, rfl,
   unknown_provider_key_error_amended testSettings 0 emptyStore "garmin" "c"
     (.success bodyR2) (by decide) (by decide) rfl⟩

/-- C4 counterexample: with a stored record expiring at 300 and now = 0 we
have expires_at - now ≤ 300, yet `get_valid_access_token` performs no
refresh call, because `is_token_expired` uses the strict comparison
`now > expires_at - 300`. -/
theorem expiry_boundary_no_refresh_cex :
    (300 : Int) - 0 ≤ 300 ∧
    (get_valid_access_token testSettings 0 storeEdge "strava" (.success bodyR2)).refreshCalls
      = 0 := by
  constructor
  · decide
  · rfl

/-- C4 amended: for every provider and stored record, if
expires_at - now < 300 (strictly, i.e. now > expires_at - 300) then
`get_valid_access_token` triggers exactly one refresh call before
returning. -/
theorem expired_token_triggers_one_refresh
    (s : Settings) (now : Int) (store : TokenStore) (provider : String)
    (rec : StoredRecord) (resp : HttpResult)
    (hstore : get_tokens store provider = some rec)
    (hexp : rec.expires_at - now < 300) :
    (get_valid_access_token s now store provider resp).refreshCalls = 1 := by
  apply gvat_refresh_count_of_expired
  unfold is_token_expired
  rw [hstore]
  simp only [decide_eq_true_eq]
  omega

/-- C4 amended witness: record expiring at 1000 read at time 701. -/
theorem expired_token_triggers_one_refresh_witness :
    get_tokens storeB "strava" = some ⟨"tok", "rt", 1000⟩ ∧
    (1000 : Int) - 701 < 300 ∧
    (get_valid_access_token testSettings 701 storeB "strava" (.success bodyR2)).refreshCalls
      = 1 :=
  ⟨rfl, by decide,
   expired_token_triggers_one_refresh testSettings 701 storeB "strava" ⟨"tok", "rt", 1000⟩
     (.success bodyR2) rfl (by decide)⟩

/-- C5: for every provider with a stored record within the expiry buffer
(now ≤ expires_at - 300), two consecutive `get_valid_access_token` calls
return the same access_token, perform no outbound HTTP call, and leave the
stored record unchanged (the store returned by both calls is the original
store). -/
theorem valid_token_idempotent_read
    (s : Settings) (now1 now2 : Int) (store : TokenStore) (provider : String)
    (rec : StoredRecord) (resp : HttpResult)
    (hstore : get_tokens store provider = some rec)
    (h1 : now1 ≤ rec.expires_at - 300) (h2 : now2 ≤ rec.expires_at - 300) :
    get_valid_access_token s now1 store provider resp
      = ⟨.ok (store, rec.access_token), 0, 0⟩ ∧
    get_valid_access_token s now2 store provider resp
      = ⟨.ok (store, rec.access_token), 0, 0⟩ := by
  have key : ∀ n : Int, n ≤ rec.expires_at - 300 →
      get_valid_access_token s n store provider resp
        = ⟨.ok (store, rec.access_token), 0, 0⟩ := by
    intro n hn
    have hne : is_token_expired n store provider = false := by
      unfold is_token_expired
      rw [hstore]
      simp only [decide_eq_false_iff_not]
      omega
    unfold get_valid_access_token
    rw [hne, if_neg Bool.false_ne_true, hstore]
  exact ⟨key now1 h1, key now2 h2⟩

/-- C5 witness: the strava record expiring at 1000 read at times 0 and 5. -/
theorem valid_token_idempotent_read_witness :
    get_tokens storeA "strava" = some recA ∧
    (0 : Int) ≤ 1000 - 300 ∧ (5 : Int) ≤ 1000 - 300 ∧
    (get_valid_access_token testSettings 0 storeA "strava" (.success bodyR2)
       = ⟨.ok (storeA, "oldA"), 0, 0⟩ ∧
     get_valid_access_token testSettings 5 storeA "strava" (.success bodyR2)
       = ⟨.ok (storeA, "oldA"), 0, 0⟩) :=
  ⟨rfl, by decide, by decide,
   valid_token_idempotent_read testSettings 0 5 storeA "strava" recA (.success bodyR2)
     rfl (by decide) (by decide)⟩

/-- C6: for every supported provider with no prior stored record, a
successful exchange whose 2xx response carries expires_in (and no
expires_at) creates exactly one record for that provider, with
expires_at = now + expires_in; every other key is untouched. -/
theorem exchange_creates_record
    (s : Settings) (now : Int) (store : TokenStore) (provider code : String)
    (body : TokenData) (a r : String) (d : Int) (st : TokenStore) (td : TokenData)
    (_hprior : get_tokens store provider = none)
    (hat : body.access_token = some a) (hrt : body.refresh_token = some r)
    (hei : body.expires_in = some d) (hea : body.expires_at = none)
    (hok : (exchange_code_for_tokens s now store provider code (.success body)).result
      = .ok (st, td)) :
    get_tokens st provider = some ⟨a, r, now + d⟩ ∧
    ∀ q, q ≠ provider → get_tokens st q = get_tokens store q := by
  unfold exchange_code_for_tokens at hok
  split at hok
  · simp at hok
  · split at hok
    · rename_i status hs
      exact absurd hs (by simp)
    · rename_i td0 hs
      obtain rfl : td0 = body := by injection hs with h1; exact h1.symm
      split at hok
      · simp at hok
      · rename_i st1 td1 hs1
        simp only [Except.ok.injEq, Prod.mk.injEq] at hok
        obtain ⟨hst, -⟩ := hok
        obtain ⟨a', r', ha', hr', hq⟩ := save_tokens_ok_elim hs1
        rw [hat] at ha'
        rw [hrt] at hr'
        obtain rfl : a' = a := (Option.some.inj ha').symm
        obtain rfl : r' = r := (Option.some.inj hr').symm
        constructor
        · have hsp := hq provider
          rw [if_pos rfl] at hsp
          rw [hst] at hsp
          rw [hea, hei] at hsp
          simpa using hsp
        · intro q hqne
          have := hq q
          rw [if_neg hqne] at this
          rw [hst] at this
          exact this

/-- C6 witness: exchanging a code into the empty store at time 500 with a
response carrying expires_in = 3600. -/
theorem exchange_creates_record_witness :
    get_tokens emptyStore "strava" = none ∧
    bodyFull.access_token = some "acc" ∧ bodyFull.refresh_token = some "ref" ∧
    bodyFull.expires_in = some 3600 ∧ bodyFull.expires_at = none ∧
    (exchange_code_for_tokens testSettings 500 emptyStore "strava" "c"
        (.success bodyFull)).result = .ok (storeFull, bodyFull') ∧
    get_tokens storeFull "strava" = some ⟨"acc", "ref", 500 + 3600⟩ ∧
    get_tokens storeFull "whoop" = get_tokens emptyStore "whoop" :=
  ⟨rfl, rfl, rfl, rfl, rfl, rfl,
   (exchange_creates_record testSettings 500 emptyStore "strava" "c" bodyFull "acc" "ref"
      3600 storeFull bodyFull' rfl rfl rfl rfl rfl rfl).1,
   (exchange_creates_record testSettings 500 emptyStore "strava" "c" bodyFull "acc" "ref"
      3600 storeFull bodyFull' rfl rfl rfl rfl rfl rfl).2 "whoop" (by decide)⟩

/-- C7: for every supported provider, deleting its tokens and then calling
`get_valid_access_token` fails with the "No refresh token stored" error —
which the spec's §7 taxonomy classifies as `NotAuthenticated` — and no
token is returned. -/
theorem delete_then_get_fails_not_authenticated
    (s : Settings) (now : Int) (store : TokenStore) (provider : String) (resp : HttpResult)
    (hp : provider = "strava" ∨ provider = "whoop") :
    (get_valid_access_token s now (delete_tokens store provider) provider resp).result
      = .error (.noRefreshTokenStored provider) ∧
    (Err.noRefreshTokenStored provider).isNotAuthenticated = true := by
  have hdel : get_tokens (delete_tokens store provider) provider = none := by
    unfold get_tokens delete_tokens
    rw [if_pos rfl]
  have hcfg : ∃ cfg, PROVIDERS s provider = some cfg := by
    rcases hp with h | h <;> subst h <;> exact ⟨_, rfl⟩
  obtain ⟨cfg, hcfg⟩ := hcfg
  have hexp : is_token_expired now (delete_tokens store provider) provider = true := by
    unfold is_token_expired; rw [hdel]
  have hrefresh : (refresh_tokens s now (delete_tokens store provider) provider resp).result
      = .error (.noRefreshTokenStored provider) := by
    unfold refresh_tokens
    split
    · rename_i hnone
      rw [hcfg] at hnone
      exact absurd hnone (by simp)
    · split
      · rfl
      · rename_i tokens htk
        rw [hdel] at htk
        exact absurd htk (by simp)
  constructor
  · unfold get_valid_access_token
    rw [hexp, if_pos rfl]
    simp [hrefresh]
  · rfl

/-- C7 witness: deleting strava from `storeA` then requesting a token. -/
theorem delete_then_get_fails_not_authenticated_witness :
    (("strava" : String) = "strava" ∨ ("strava" : String) = "whoop") ∧
    ((get_valid_access_token testSettings 0 (delete_tokens storeA "strava") "strava"
        (.success bodyR2)).result = .error (.noRefreshTokenStored "strava") ∧
     (Err.noRefreshTokenStored "strava").isNotAuthenticated = true) :=
  ⟨Or.inl rfl,
   delete_then_get_fails_not_authenticated testSettings 0 storeA "strava" (.success bodyR2)
     (Or.inl rfl)⟩

/-- C8: whenever `is_token_expired` reports false, a record exists, so the
not-authenticated branch of `get_valid_access_token` that runs after the
expiry check is unreachable: the call never fails with the
"Not authenticated" error — an absent record always surfaces through the
refresh path instead. -/
theorem not_authenticated_branch_unreachable
    (s : Settings) (now : Int) (store : TokenStore) (provider : String) (resp : HttpResult) :
    (is_token_expired now store provider = false → (get_tokens store provider).isSome = true) ∧
    ∀ e, (get_valid_access_token s now store provider resp).result = .error e →
      e ≠ .notAuthenticated provider := by
  constructor
  · intro hfe
    unfold is_token_expired at hfe
    cases htk : get_tokens store provider with
    | none => rw [htk] at hfe; simp at hfe
    | some tokens => simp [htk]
  · intro e he hcontra
    subst hcontra
    cases hexp : is_token_expired now store provider with
    | true =>
      simp only [get_valid_access_token, hexp, reduceIte] at he
      split at he
      · rename_i e0 hres
        simp only [Except.error.injEq] at he
        subst he
        exact (refresh_error_not_notAuthenticated hres) rfl
      · rename_i st1 td1 hres
        split at he
        · simp at he
        · simp at he
    | false =>
      simp only [get_valid_access_token, hexp, reduceIte] at he
      cases htk : get_tokens store provider with
      | none =>
        have htrue : is_token_expired now store provider = true := by
          unfold is_token_expired; rw [htk]
        rw [htrue] at hexp
        simp at hexp
      | some tokens =>
        rw [htk] at he
        simp at he

/-- C8 witness: with the valid `storeA` record the expiry check is false
and a record exists; on the empty store the absent-record case surfaces as
the refresh-path error, not as the "Not authenticated" error. -/
theorem not_authenticated_branch_unreachable_witness :
    is_token_expired 0 storeA "strava" = false ∧
    (get_tokens storeA "strava").isSome = true ∧
    (get_valid_access_token testSettings 0 emptyStore "strava" (.success bodyR2)).result
      = .error (.noRefreshTokenStored "strava") ∧
    Err.noRefreshTokenStored "strava" ≠ Err.notAuthenticated "strava" :=
  ⟨rfl,
   (not_authenticated_branch_unreachable testSettings 0 storeA "strava" (.success bodyR2)).1 rfl,
   rfl,
   (not_authenticated_branch_unreachable testSettings 0 emptyStore "strava" (.success bodyR2)).2
     (Err.noRefreshTokenStored "strava") rfl⟩

/-- C9: for distinct provider ids q ≠ p, a successful save for p and a
delete of p both leave the stored record for q (and every other key)
unchanged. -/
theorem save_delete_frame
    (now : Int) (store : TokenStore) (p q : String) (td : TokenData)
    (st : TokenStore) (td' : TokenData)
    (hne : q ≠ p)
    (hsave : save_tokens now store p td = .ok (st, td')) :
    get_tokens st q = get_tokens store q ∧
    get_tokens (delete_tokens store p) q = get_tokens store q := by
  constructor
  · obtain ⟨a, r, -, -, hq⟩ := save_tokens_ok_elim hsave
    have h := hq q
    rw [if_neg hne] at h
    exact h
  · unfold get_tokens delete_tokens
    rw [if_neg hne]

/-- C9 witness: saving a strava record into `storeA` and deleting strava
both leave the whoop key unchanged. -/
theorem save_delete_frame_witness :
    ("whoop" : String) ≠ "strava" ∧
    save_tokens 500 storeA "strava" bodyFull = .ok (storeC, bodyFull') ∧
    (get_tokens storeC "whoop" = get_tokens storeA "whoop" ∧
     get_tokens (delete_tokens storeA "strava") "whoop" = get_tokens storeA "whoop") :=
  ⟨by decide, rfl,
   save_delete_frame 500 storeA "strava" "whoop" bodyFull storeC bodyFull' (by decide) rfl⟩

/-- C10: if the token data passed to save contains neither expires_at nor
expires_in, the persisted record gets expires_at = 0, so every subsequent
expiry check (at any nonnegative time) treats it as expired and
`get_valid_access_token` always attempts a refresh for it. -/
theorem missing_expiry_defaults_expired
    (s : Settings) (now : Int) (store : TokenStore) (provider : String)
    (td : TokenData) (st : TokenStore) (td' : TokenData) (resp : HttpResult)
    (hea : td.expires_at = none) (hei : td.expires_in = none)
    (hsave : save_tokens now store provider td = .ok (st, td')) :
    ∃ rec, get_tokens st provider = some rec ∧ rec.expires_at = 0 ∧
      ∀ now2 : Int, 0 ≤ now2 →
        is_token_expired now2 st provider = true ∧
        (get_valid_access_token s now2 st provider resp).refreshCalls = 1 := by
  obtain ⟨a, r, -, -, hq⟩ := save_tokens_ok_elim hsave
  have hsp := hq provider
  rw [if_pos rfl] at hsp
  rw [hea, hei] at hsp
  simp only [Option.isNone_none, Option.isSome_none, Bool.and_false, Bool.false_eq_true,
    if_false, Option.getD_none] at hsp
  refine ⟨⟨a, r, 0⟩, hsp, rfl, ?_⟩
  intro now2 h2
  have hexp : is_token_expired now2 st provider = true := by
    unfold is_token_expired get_tokens
    rw [hsp]
    simp only [decide_eq_true_eq]
    omega
  exact ⟨hexp, gvat_refresh_count_of_expired hexp⟩

/-- C10 witness: saving a body with no expiry information into the empty
store yields expires_at = 0, expired at time 9999, and a refresh attempt. -/
theorem missing_expiry_defaults_expired_witness :
    bodyBare.expires_at = none ∧ bodyBare.expires_in = none ∧
    save_tokens 500 emptyStore "strava" bodyBare = .ok (storeBare, bodyBare) ∧
    is_token_expired 9999 storeBare "strava" = true ∧
    (get_valid_access_token testSettings 9999 storeBare "strava"
      (.success bodyR2)).refreshCalls = 1 := by
  obtain ⟨rec, hrec, hz, hall⟩ := missing_expiry_defaults_expired testSettings 500 emptyStore
    "strava" bodyBare storeBare bodyBare (.success bodyR2) rfl rfl rfl
  obtain ⟨he, hc⟩ := hall 9999 (by norm_num)
  exact ⟨rfl, rfl, rfl, he, hc⟩
